import Mathlib

/-!
Shallow embedding of `src/api/auth-middleware.py` (class `AuthenticationManager`
and the request decorator `AuthenticationRequired`) from the
`private-llm-cloud` repository, together with theorems settling the frozen
claims about it.

Modelling conventions:
* `datetime.utcnow()` and `time.time()` are modelled as a `now : Nat`
  parameter (seconds); the wall clock is externalized.
* Python `str` values used as credential material are modelled by the
  symbolic type `CredString`: a string produced by `jwt.encode` is
  represented by its payload together with the signing secret
  (`CredString.signedJwt`), every other string by `CredString.plain`.
  `jwt.decode` succeeds exactly on tokens signed with the matching secret
  (signature forgery is excluded, as usual in a symbolic model).
* bcrypt hashing (`passlib`) is modelled symbolically: `pwdVerify pw h`
  holds iff `h` was produced by `pwdHash pw`.
* Randomness (`secrets.token_urlsafe`) is externalized: freshly generated
  session ids and API keys are parameters of the operations.
* The Python dicts `self.users`, `self.sessions`, `self.rate_limits`,
  `self.failed_attempts` are association lists in insertion order, which is
  exactly the iteration order of a Python dict.
* The encrypted files behind `_save_users` / `_save_sessions` appear as the
  `usersDisk` / `sessionsDisk` fields of the state (their decrypted,
  deserialized content); the success of the underlying OS write is the
  `writeOk : Bool` parameter of each mutating operation.  The source wraps
  the body of both save methods in `try/except` and only logs on failure,
  so a failed write leaves the disk image unchanged and no error reaches
  the caller — the model reproduces exactly that.
* Python dataclass fields are dynamically typed: `_load_users` builds
  `User(**user_data)` without parsing the ISO strings back into datetimes,
  so the `created_at` / `last_login` fields of a `User` can hold either a
  datetime or a string.  They are therefore modelled by the sum type
  `DTVal`.
-/

namespace AuthMW

/-- Symbolic model of a Python string used as credential material.
A string produced by `jwt.encode(payload, secret)` is represented by its
payload fields plus the signing secret; all other strings are `plain`. -/
inductive CredString where
  | plain (s : String)
  | signedJwt (secret : Nat) (sub : String) (iat : Nat) (exp : Nat) (perms : List String)
deriving DecidableEq, BEq, Repr

/-- A dynamically-typed datetime slot of a dataclass: either an actual
`datetime` (modelled by seconds), an ISO string, or Python `None`. -/
inductive DTVal where
  | dt (t : Nat)
  | str (s : String)
  | none
deriving DecidableEq, Repr

/-- `@dataclass class User` of `auth-middleware.py`. -/
structure User where
  username : String
  password_hash : String
  api_keys : List CredString
  permissions : List String
  created_at : DTVal
  last_login : DTVal
  is_active : Bool
  rate_limit : Nat
deriving DecidableEq, Repr

/-- `@dataclass class Session` of `auth-middleware.py`.  Sessions are only
ever built by `create_session` or parsed by `_load_sessions` (which does
call `datetime.fromisoformat`), so their datetime fields are always actual
datetimes and can be typed `Nat` directly. -/
structure Session where
  session_id : String
  user_id : String
  created_at : Nat
  expires_at : Nat
  ip_address : String
  user_agent : String
  is_active : Bool
deriving DecidableEq, Repr

/-- The JSON dictionary written for one user by `_save_users`. -/
structure SerUser where
  username : String
  password_hash : String
  api_keys : List CredString
  permissions : List String
  created_at : String
  last_login : Option String
  is_active : Bool
  rate_limit : Nat
deriving DecidableEq, Repr

/-- The JSON dictionary written for one session by `_save_sessions`. -/
structure SerSession where
  session_id : String
  user_id : String
  created_at : String
  expires_at : String
  ip_address : String
  user_agent : String
  is_active : Bool
deriving DecidableEq, Repr

/-- In-memory and on-disk state of one `AuthenticationManager` instance. -/
structure AuthState where
  users : List (String × User)
  sessions : List (String × Session)
  rate_limits : List (String × List Nat)
  failed_attempts : List (String × List Nat)
  jwtSecret : Nat
  usersDisk : Option (List (String × SerUser))
  sessionsDisk : Option (List (String × SerSession))
deriving DecidableEq, Repr

/-- Python dict read `d.get(k)`: first binding of the key, if any. -/
def lookupAssoc {α : Type} : List (String × α) → String → Option α
  | [], _ => Option.none
  | (k', v) :: rest, k => if k' = k then some v else lookupAssoc rest k

/-- Python dict write `d[k] = v`: replace in place, or append a fresh key
at the end (dicts keep insertion order). -/
def updateAssoc {α : Type} : List (String × α) → String → α → List (String × α)
  | [], k, v => [(k, v)]
  | (k', v') :: rest, k, v =>
      if k' = k then (k, v) :: rest else (k', v') :: updateAssoc rest k v

/-- Symbolic bcrypt: `pwd_context.hash`. -/
def pwdHash (pw : String) : String := "bcrypt$" ++ pw

/-- Symbolic bcrypt: `pwd_context.verify(password, hash)` succeeds exactly
on a hash produced from the same password. -/
def pwdVerify (pw h : String) : Bool := h = pwdHash pw

/-- Model of `datetime.isoformat()`: any injective rendering of the time
as a string serves the model. -/
def isoformat (t : Nat) : String := toString t

/-- Model of `jwt.decode(token, secret, algorithms=["HS256"])`: returns the
`sub` claim on a signature match with an unexpired `exp` claim; raises
(`Option.none`) on a bad signature, a foreign string, or an expired token. -/
def jwtDecode (secret now : Nat) (tok : CredString) : Option String :=
  match tok with
  | CredString.plain _ => Option.none
  | CredString.signedJwt s sub _ exp _ =>
      if s = secret then (if now < exp then some sub else Option.none) else Option.none

/-- `AuthenticationManager.generate_jwt_token`. -/
def generate_jwt_token (now : Nat) (user : User) (st : AuthState) : CredString :=
  CredString.signedJwt st.jwtSecret user.username now (now + 86400) user.permissions

/-- Serialization of one datetime field in `_save_users`:
`user.created_at.isoformat()`.  On a non-datetime value Python raises
`AttributeError` (modelled by `Option.none`), which the surrounding
`try/except` of `_save_users` would swallow. -/
def serCreatedAt : DTVal → Option String
  | DTVal.dt t => some (isoformat t)
  | _ => Option.none

/-- Serialization of `last_login` in `_save_users`:
`user.last_login.isoformat() if user.last_login else None`.  A string value
is truthy, so `.isoformat()` is attempted on it and raises. -/
def serLastLogin : DTVal → Option (Option String)
  | DTVal.dt t => some (some (isoformat t))
  | DTVal.none => some Option.none
  | DTVal.str _ => Option.none

/-- The per-user dictionary built inside `_save_users`. -/
def serializeUser (u : User) : Option SerUser :=
  match serCreatedAt u.created_at, serLastLogin u.last_login with
  | some ca, some ll =>
      some { username := u.username, password_hash := u.password_hash,
             api_keys := u.api_keys, permissions := u.permissions,
             created_at := ca, last_login := ll,
             is_active := u.is_active, rate_limit := u.rate_limit }
  | _, _ => Option.none

/-- The whole `users_data` dictionary built inside `_save_users`. -/
def serializeUsers : List (String × User) → Option (List (String × SerUser))
  | [] => some []
  | (k, u) :: rest =>
      match serializeUser u, serializeUsers rest with
      | some su, some srest => some ((k, su) :: srest)
      | _, _ => Option.none

/-- `_load_users`: each user is rebuilt by `User(**user_data)` — the fields
are taken verbatim from the JSON dictionary, with **no**
`datetime.fromisoformat` call (contrast `_load_sessions`), so the ISO
strings land unparsed in the datetime slots. -/
def deserializeUser (d : SerUser) : User :=
  { username := d.username, password_hash := d.password_hash,
    api_keys := d.api_keys, permissions := d.permissions,
    created_at := DTVal.str d.created_at,
    last_login := match d.last_login with
                  | some s => DTVal.str s
                  | Option.none => DTVal.none,
    is_active := d.is_active, rate_limit := d.rate_limit }

/-- The mapping returned by `_load_users` from a decrypted store. -/
def deserializeUsers (l : List (String × SerUser)) : List (String × User) :=
  l.map (fun p => (p.1, deserializeUser p.2))

/-- The per-session dictionary built inside `_save_sessions`. -/
def serializeSession (s : Session) : SerSession :=
  { session_id := s.session_id, user_id := s.user_id,
    created_at := isoformat s.created_at, expires_at := isoformat s.expires_at,
    ip_address := s.ip_address, user_agent := s.user_agent,
    is_active := s.is_active }

/-- `AuthenticationManager._save_users`.  The body is wrapped in
`try/except Exception: print(...)`: a serialization error or a failed OS
write (`writeOk = false`) leaves the file as it was and the method still
returns normally — no failure ever reaches the caller. -/
def saveUsers (writeOk : Bool) (st : AuthState) : AuthState :=
  match serializeUsers st.users with
  | Option.none => st
  | some d => if writeOk then { st with usersDisk := some d } else st

/-- `AuthenticationManager._save_sessions`, same swallow-all shape as
`_save_users`. -/
def saveSessions (writeOk : Bool) (st : AuthState) : AuthState :=
  if writeOk then
    { st with sessionsDisk := some (st.sessions.map (fun p => (p.1, serializeSession p.2))) }
  else st

/-- `AuthenticationManager._record_failed_attempt`: evict entries at least
one hour old, then append the current timestamp. -/
def recordFailedAttempt (now : Nat) (identifier : String) (st : AuthState) : AuthState :=
  let old := (lookupAssoc st.failed_attempts identifier).getD []
  let kept := old.filter (fun t => now - t < 3600)
  { st with failed_attempts := updateAssoc st.failed_attempts identifier (kept ++ [now]) }

/-- `AuthenticationManager.is_blocked`.  Note that the source takes no
clock: it counts whatever is currently stored for the identifier, with no
eviction of stale entries. -/
def is_blocked (identifier : String) (st : AuthState) : Bool :=
  match lookupAssoc st.failed_attempts identifier with
  | Option.none => false
  | some l => 5 ≤ l.length

/-- `AuthenticationManager.authenticate_user`.  The last component of the
result is ghost instrumentation recording whether the slow
`pwd_context.verify` call was reached on this attempt. -/
def authenticate_user (now : Nat) (writeOk : Bool) (username password : String)
    (st : AuthState) : Option User × AuthState × Bool :=
  match lookupAssoc st.users username with
  | Option.none => (Option.none, st, false)
  | some user =>
      if user.is_active = false then (Option.none, st, false)
      else if pwdVerify password user.password_hash = false then
        (Option.none, recordFailedAttempt now username st, true)
      else
        let user' := { user with last_login := DTVal.dt now }
        let st' := saveUsers writeOk { st with users := updateAssoc st.users username user' }
        (some user', st', true)

/-- `AuthenticationManager.authenticate_api_key`: first user (in dict
order) holding the key and active. -/
def findApiKeyUser (apiKey : CredString) : List (String × User) → Option User
  | [] => Option.none
  | (_, u) :: rest =>
      if (u.api_keys.contains apiKey && u.is_active) = true then some u
      else findApiKeyUser apiKey rest

/-- `AuthenticationManager.authenticate_api_key`. -/
def authenticate_api_key (apiKey : CredString) (st : AuthState) : Option User :=
  findApiKeyUser apiKey st.users

/-- `AuthenticationManager.authenticate_jwt`: decode, read the `sub` claim
(`payload.get("sub")`, falsy when empty), then require the named user to
exist and be active. -/
def authenticate_jwt (now : Nat) (tok : CredString) (st : AuthState) : Option User :=
  match jwtDecode st.jwtSecret now tok with
  | Option.none => Option.none
  | some sub =>
      if sub = "" then Option.none
      else
        match lookupAssoc st.users sub with
        | Option.none => Option.none
        | some u => if u.is_active then some u else Option.none

/-- `AuthenticationManager.create_session`; `sessionId` stands for the
freshly generated `secrets.token_urlsafe(32)`. -/
def create_session (now : Nat) (writeOk : Bool) (sessionId : String) (user : User)
    (ip ua : String) (st : AuthState) : Session × AuthState :=
  let s : Session :=
    { session_id := sessionId, user_id := user.username,
      created_at := now, expires_at := now + 86400,
      ip_address := ip, user_agent := ua.take 200, is_active := true }
  (s, saveSessions writeOk { st with sessions := updateAssoc st.sessions sessionId s })

/-- `AuthenticationManager.validate_session`; `strictIp` is the
`STRICT_SESSION_IP` environment switch. -/
def validate_session (now : Nat) (writeOk strictIp : Bool) (sessionId ip : String)
    (st : AuthState) : Option Session × AuthState :=
  match lookupAssoc st.sessions sessionId with
  | Option.none => (Option.none, st)
  | some s =>
      if s.is_active = false then (Option.none, st)
      else if s.expires_at < now then
        let s' := { s with is_active := false }
        (Option.none, saveSessions writeOk { st with sessions := updateAssoc st.sessions sessionId s' })
      else if strictIp = true ∧ s.ip_address ≠ ip then (Option.none, st)
      else (some s, st)

/-- `AuthenticationManager.revoke_session`. -/
def revoke_session (writeOk : Bool) (sessionId : String) (st : AuthState) : AuthState :=
  match lookupAssoc st.sessions sessionId with
  | Option.none => st
  | some s =>
      saveSessions writeOk
        { st with sessions := updateAssoc st.sessions sessionId { s with is_active := false } }

/-- `AuthenticationManager.check_rate_limit`: evict stale timestamps for
the `username:endpoint` key, admit iff the remaining count is below the
user's limit, appending the current timestamp only on success. -/
def check_rate_limit (now : Nat) (user : User) (endpoint : String)
    (st : AuthState) : Bool × AuthState :=
  let key := user.username ++ ":" ++ endpoint
  let old := (lookupAssoc st.rate_limits key).getD []
  let kept := old.filter (fun t => now - t < 3600)
  if user.rate_limit ≤ kept.length then
    (false, { st with rate_limits := updateAssoc st.rate_limits key kept })
  else
    (true, { st with rate_limits := updateAssoc st.rate_limits key (kept ++ [now]) })

/-- `AuthenticationManager.create_user`; `apiKey` stands for the generated
initial key.  `Option.none` models the `ValueError` raised on a duplicate
username. -/
def create_user (now : Nat) (writeOk : Bool) (apiKey : CredString)
    (username password : String) (permissions : List String)
    (st : AuthState) : Option (User × AuthState) :=
  match lookupAssoc st.users username with
  | some _ => Option.none
  | Option.none =>
      let u : User :=
        { username := username, password_hash := pwdHash password,
          api_keys := [apiKey], permissions := permissions,
          created_at := DTVal.dt now, last_login := DTVal.none,
          is_active := true, rate_limit := 100 }
      some (u, saveUsers writeOk { st with users := updateAssoc st.users username u })

/-- `AuthenticationManager.delete_user`: remove the user, persist the user
store, mark every session of that user inactive, persist the session
store.  A missing username is a no-op. -/
def delete_user (writeOkU writeOkS : Bool) (username : String) (st : AuthState) : AuthState :=
  match lookupAssoc st.users username with
  | Option.none => st
  | some _ =>
      let st1 := saveUsers writeOkU { st with users := st.users.filter (fun p => p.1 ≠ username) }
      let st2 := { st1 with
        sessions := st1.sessions.map (fun p =>
          if p.2.user_id = username then (p.1, { p.2 with is_active := false }) else p) }
      saveSessions writeOkS st2

/-- `AuthenticationManager.generate_new_api_key`; `Option.none` models the
`ValueError` on an unknown user, `newKey` the generated key. -/
def generate_new_api_key (writeOk : Bool) (newKey : CredString) (username : String)
    (st : AuthState) : Option (CredString × AuthState) :=
  match lookupAssoc st.users username with
  | Option.none => Option.none
  | some u =>
      let u' := { u with api_keys := u.api_keys ++ [newKey] }
      some (newKey, saveUsers writeOk { st with users := updateAssoc st.users username u' })

/-- `AuthenticationManager.revoke_api_key`: remove the first occurrence if
present (no error if absent). -/
def revoke_api_key (writeOk : Bool) (username : String) (apiKey : CredString)
    (st : AuthState) : AuthState :=
  match lookupAssoc st.users username with
  | Option.none => st
  | some u =>
      if u.api_keys.contains apiKey = true then
        let u' := { u with api_keys := u.api_keys.erase apiKey }
        saveUsers writeOk { st with users := updateAssoc st.users username u' }
      else st

/-- `AuthenticationManager.cleanup_expired_sessions`: delete the records
whose `expires_at` has passed, persisting only when something was
removed. -/
def cleanup_expired_sessions (now : Nat) (writeOk : Bool) (st : AuthState) : Nat × AuthState :=
  let expired := st.sessions.filter (fun p => p.2.expires_at < now)
  let st' := { st with sessions := st.sessions.filter (fun p => ¬ p.2.expires_at < now) }
  (expired.length, if expired.length ≠ 0 then saveSessions writeOk st' else st')

/-- The `Authorization` header value as seen by the request wrapper in
`AuthenticationRequired.__call__`: either `"Bearer " + tok` (the
`startswith("Bearer ")` test holds and `auth_header[7:]` recovers `tok`) or
some other string. -/
inductive AuthHeaderVal where
  | bearer (tok : CredString)
  | other (s : String)
deriving DecidableEq, Repr

/-- Outcome of one call to the wrapped route: either the handler runs with
the resolved principal, or an `HTTPException` with the given status code is
raised (401 unauthenticated, 403 insufficient permissions, 429 rate
limited). -/
inductive AuthOutcome where
  | ok (user : User)
  | err (code : Nat)
deriving DecidableEq, Repr

/-- The credential-resolution phase of `AuthenticationRequired.__call__`:
bearer material (header starting with `"Bearer "`) is tried first — JWT,
then API key on the same string — and on its presence the session cookie is
never consulted (`elif`); otherwise the session cookie is validated and the
session's user looked up. -/
def resolveCredential (now : Nat) (writeOk strictIp : Bool)
    (authHeader : Option AuthHeaderVal) (sessionCookie : Option String)
    (clientIp : Option String) (st : AuthState) : Option User × AuthState :=
  match authHeader with
  | some (AuthHeaderVal.bearer tok) =>
      match authenticate_jwt now tok st with
      | some u => (some u, st)
      | Option.none => (authenticate_api_key tok st, st)
  | _ =>
      match sessionCookie with
      | some sc =>
          let ip := clientIp.getD "unknown"
          match validate_session now writeOk strictIp sc ip st with
          | (some s, st') => (lookupAssoc st'.users s.user_id, st')
          | (Option.none, st') => (Option.none, st')
      | Option.none => (Option.none, st)

/-- The full wrapper body of `AuthenticationRequired.__call__`: resolve the
credential, raise 401 on failure, then the permission check (OR semantics,
skipped for an empty requirement), then the rate limiter (429), and finally
run the handler with the principal.  `path` is `request.url.path`. -/
def dispatchAuth (now : Nat) (writeOk strictIp : Bool)
    (authHeader : Option AuthHeaderVal) (sessionCookie : Option String)
    (clientIp : Option String) (permissions : List String) (path : String)
    (st : AuthState) : AuthOutcome × AuthState :=
  match resolveCredential now writeOk strictIp authHeader sessionCookie clientIp st with
  | (Option.none, st1) => (AuthOutcome.err 401, st1)
  | (some u, st1) =>
      if permissions ≠ [] ∧ permissions.any (fun p => u.permissions.contains p) = false then
        (AuthOutcome.err 403, st1)
      else
        match check_rate_limit now u path st1 with
        | (true, st2) => (AuthOutcome.ok u, st2)
        | (false, st2) => (AuthOutcome.err 429, st2)

/-- One invocation of an `AuthenticationManager` operation, with the clock,
the write outcomes and the generated random material externalized as
constructor arguments. -/
inductive AuthOp where
  | login (now : Nat) (writeOk : Bool) (username password : String)
  | createSession (now : Nat) (writeOk : Bool) (sid : String) (user : User) (ip ua : String)
  | validateSession (now : Nat) (writeOk strictIp : Bool) (sid ip : String)
  | revokeSession (writeOk : Bool) (sid : String)
  | deleteUser (writeOkU writeOkS : Bool) (username : String)
  | cleanup (now : Nat) (writeOk : Bool)
  | createUser (now : Nat) (writeOk : Bool) (key : CredString) (username password : String) (perms : List String)
  | newApiKey (writeOk : Bool) (key : CredString) (username : String)
  | revokeApiKey (writeOk : Bool) (username : String) (key : CredString)
  | rateCheck (now : Nat) (user : User) (endpoint : String)
deriving Repr

/-- The state transformer of one operation (results projected away). -/
def applyOp (op : AuthOp) (st : AuthState) : AuthState :=
  match op with
  | AuthOp.login now wOk u p => (authenticate_user now wOk u p st).2.1
  | AuthOp.createSession now wOk sid user ip ua => (create_session now wOk sid user ip ua st).2
  | AuthOp.validateSession now wOk sIp sid ip => (validate_session now wOk sIp sid ip st).2
  | AuthOp.revokeSession wOk sid => revoke_session wOk sid st
  | AuthOp.deleteUser wU wS u => delete_user wU wS u st
  | AuthOp.cleanup now wOk => (cleanup_expired_sessions now wOk st).2
  | AuthOp.createUser now wOk key u p perms =>
      match create_user now wOk key u p perms st with
      | some (_, st') => st'
      | Option.none => st
  | AuthOp.newApiKey wOk key u =>
      match generate_new_api_key wOk key u st with
      | some (_, st') => st'
      | Option.none => st
  | AuthOp.revokeApiKey wOk u key => revoke_api_key wOk u key st
  | AuthOp.rateCheck now user e => (check_rate_limit now user e st).2

/-- A sequence of operations applied left to right. -/
def applyOps (ops : List AuthOp) (st : AuthState) : AuthState :=
  ops.foldl (fun s op => applyOp op s) st

/-- The session id freshly generated by an operation, if any: only
`create_session` mints one (`secrets.token_urlsafe(32)`, never reused). -/
def createdSid : AuthOp → Option String
  | AuthOp.createSession _ _ sid _ _ _ => some sid
  | _ => Option.none

/-- Every binding of the session id `sid` in the store is inactive.  (A
Python dict holds at most one binding per key, so for states arising from
the manager this says exactly: the session `sid`, if present, is
inactive.) -/
def SidInactive (sid : String) (st : AuthState) : Prop :=
  ∀ p ∈ st.sessions, p.1 = sid → p.2.is_active = false

instance (sid : String) (st : AuthState) : Decidable (SidInactive sid st) := by
  unfold SidInactive
  infer_instance

/-! ### Concrete instances used to exhibit behaviours of the code -/

/-- An active user whose stored hash matches the password `"correct-pw"`;
five failed attempts for her are on record, all inside the trailing hour as
of time 3500. -/
def c1Alice : User :=
  { username := "alice", password_hash := pwdHash "correct-pw",
    api_keys := [CredString.plain "pllm_alicekey"], permissions := ["chat"],
    created_at := DTVal.dt 0, last_login := DTVal.none,
    is_active := true, rate_limit := 100 }

def c1State : AuthState :=
  { users := [("alice", c1Alice)], sessions := [], rate_limits := [],
    failed_attempts := [("alice", [3000, 3100, 3200, 3300, 3400])],
    jwtSecret := 0, usersDisk := Option.none, sessionsDisk := Option.none }

/-- An empty store whose encrypted users file currently holds the empty
mapping. -/
def c2Start : AuthState :=
  { users := [], sessions := [], rate_limits := [], failed_attempts := [],
    jwtSecret := 0, usersDisk := some [], sessionsDisk := Option.none }

/-- The user record `create_user` builds for `bob` at time 50. -/
def c2Bob : User :=
  { username := "bob", password_hash := pwdHash "hunter2",
    api_keys := [CredString.plain "pllm_bobkey"], permissions := ["chat"],
    created_at := DTVal.dt 50, last_login := DTVal.none,
    is_active := true, rate_limit := 100 }

/-- A well-formed user whose `created_at` is an actual datetime. -/
def c3Carol : User :=
  { username := "carol", password_hash := pwdHash "pw3", api_keys := [],
    permissions := ["chat"], created_at := DTVal.dt 1000,
    last_login := DTVal.none, is_active := true, rate_limit := 100 }

/-- An existing, active session that expires at time 100. -/
def c4Sess : Session :=
  { session_id := "s1", user_id := "alice", created_at := 0, expires_at := 100,
    ip_address := "1.2.3.4", user_agent := "ua", is_active := true }

def c4State : AuthState :=
  { users := [], sessions := [("s1", c4Sess)], rate_limits := [],
    failed_attempts := [], jwtSecret := 0,
    usersDisk := Option.none, sessionsDisk := Option.none }

def c5Alice : User :=
  { username := "alice", password_hash := pwdHash "pwA",
    api_keys := [CredString.plain "pllm_alicekey"], permissions := ["chat"],
    created_at := DTVal.dt 0, last_login := DTVal.none,
    is_active := true, rate_limit := 10 }

def c5Bob : User :=
  { username := "bob", password_hash := pwdHash "pwB",
    api_keys := [CredString.plain "pllm_bobkey"], permissions := ["models"],
    created_at := DTVal.dt 0, last_login := DTVal.none,
    is_active := true, rate_limit := 10 }

/-- A currently valid session belonging to `bob`. -/
def c5Sess : Session :=
  { session_id := "sb", user_id := "bob", created_at := 0, expires_at := 100000,
    ip_address := "1.2.3.4", user_agent := "ua", is_active := true }

def c5State : AuthState :=
  { users := [("alice", c5Alice), ("bob", c5Bob)], sessions := [("sb", c5Sess)],
    rate_limits := [], failed_attempts := [], jwtSecret := 7,
    usersDisk := Option.none, sessionsDisk := Option.none }

/-- A token signed with the store's secret (7), naming `alice`, unexpired
at time 50. -/
def c5Tok : CredString := CredString.signedJwt 7 "alice" 0 1000 ["chat"]

/-- Five failed attempts recorded at time 0 — two hours stale by
time 10000. -/
def c6State : AuthState :=
  { users := [], sessions := [], rate_limits := [],
    failed_attempts := [("mallory", [0, 0, 0, 0, 0])],
    jwtSecret := 0, usersDisk := Option.none, sessionsDisk := Option.none }

def c7Bob : User :=
  { username := "bob", password_hash := pwdHash "pwB", api_keys := [],
    permissions := ["chat"], created_at := DTVal.dt 0, last_login := DTVal.none,
    is_active := true, rate_limit := 10 }

def c7Sess : Session :=
  { session_id := "sb", user_id := "bob", created_at := 0, expires_at := 100000,
    ip_address := "1.2.3.4", user_agent := "ua", is_active := true }

def c7State : AuthState :=
  { users := [("bob", c7Bob)], sessions := [("sb", c7Sess)], rate_limits := [],
    failed_attempts := [], jwtSecret := 0,
    usersDisk := Option.none, sessionsDisk := Option.none }

def c8User : User :=
  { username := "eve", password_hash := pwdHash "pwE", api_keys := [],
    permissions := [], created_at := DTVal.dt 0, last_login := DTVal.none,
    is_active := true, rate_limit := 1 }

/-- Two requests recorded long ago for `eve:/x`: both are outside the
trailing hour at time 7200. -/
def c8State : AuthState :=
  { users := [("eve", c8User)], sessions := [],
    rate_limits := [("eve:/x", [0, 10])], failed_attempts := [],
    jwtSecret := 0, usersDisk := Option.none, sessionsDisk := Option.none }

def c9User : User :=
  { username := "alice", password_hash := pwdHash "pw9",
    api_keys := [CredString.plain "pllm_key9"], permissions := ["chat"],
    created_at := DTVal.dt 0, last_login := DTVal.none,
    is_active := true, rate_limit := 10 }

/-- A session that has already been deactivated. -/
def c9Dead : Session :=
  { session_id := "dead", user_id := "alice", created_at := 0, expires_at := 999999,
    ip_address := "1.1.1.1", user_agent := "ua", is_active := false }

def c9State : AuthState :=
  { users := [("alice", c9User)], sessions := [("dead", c9Dead)],
    rate_limits := [], failed_attempts := [], jwtSecret := 3,
    usersDisk := Option.none, sessionsDisk := Option.none }

/-- A workload touching every kind of operation, with fresh session ids
distinct from `"dead"`. -/
def c9Ops : List AuthOp :=
  [AuthOp.createSession 10 true "fresh1" c9User "2.2.2.2" "ua2",
   AuthOp.validateSession 20 true false "dead" "1.1.1.1",
   AuthOp.login 30 true "alice" "pw9",
   AuthOp.rateCheck 35 c9User "/chat",
   AuthOp.cleanup 40 true,
   AuthOp.revokeSession true "fresh1",
   AuthOp.deleteUser true true "alice"]

/-- A deactivated account with a failure history. -/
def c10Dora : User :=
  { username := "dora", password_hash := pwdHash "pwD", api_keys := [],
    permissions := [], created_at := DTVal.dt 0, last_login := DTVal.none,
    is_active := false, rate_limit := 10 }

def c10State : AuthState :=
  { users := [("dora", c10Dora)], sessions := [], rate_limits := [],
    failed_attempts := [], jwtSecret := 0,
    usersDisk := Option.none, sessionsDisk := Option.none }

/-! ### Association-list lemmas -/

theorem lookupAssoc_updateAssoc_self {α : Type} (l : List (String × α)) (k : String) (v : α) :
    lookupAssoc (updateAssoc l k v) k = some v := by
  induction l with
  | nil => simp [updateAssoc, lookupAssoc]
  | cons hd tl ih =>
      by_cases h : hd.1 = k
      · simp [updateAssoc, lookupAssoc, h]
      · simp [updateAssoc, lookupAssoc, h, ih]

theorem lookupAssoc_mem {α : Type} {l : List (String × α)} {k : String} {v : α}
    (h : lookupAssoc l k = some v) : (k, v) ∈ l := by
  induction l with
  | nil => simp [lookupAssoc] at h
  | cons hd tl ih =>
      by_cases hk : hd.1 = k
      · simp [lookupAssoc, hk] at h
        subst hk
        subst h
        exact List.mem_cons_self _ _
      · simp [lookupAssoc, hk] at h
        exact List.mem_cons_of_mem _ (ih h)

theorem mem_updateAssoc {α : Type} {l : List (String × α)} {k : String} {v : α}
    {p : String × α} (h : p ∈ updateAssoc l k v) : p ∈ l ∨ p = (k, v) := by
  induction l with
  | nil => simp [updateAssoc] at h; right; exact h
  | cons hd tl ih =>
      by_cases hk : hd.1 = k
      · simp [updateAssoc, hk] at h
        rcases h with h | h
        · right; exact h
        · left; exact List.mem_cons_of_mem _ h
      · simp [updateAssoc, hk] at h
        rcases h with h | h
        · left; simp [h]
        · rcases ih h with h' | h'
          · left; exact List.mem_cons_of_mem _ h'
          · right; exact h'

theorem lookupAssoc_map_vals {α β : Type} (g : String → α → β)
    (l : List (String × α)) (k : String) :
    lookupAssoc (l.map (fun p => (p.1, g p.1 p.2))) k = (lookupAssoc l k).map (g k) := by
  induction l with
  | nil => simp [lookupAssoc]
  | cons hd tl ih =>
      by_cases hk : hd.1 = k
      · subst hk
        simp [lookupAssoc]
      · simp [lookupAssoc, hk, ih]

/-! ### Projection lemmas: which state components each operation leaves alone -/

theorem saveUsers_sessions (w : Bool) (st : AuthState) :
    (saveUsers w st).sessions = st.sessions := by
  unfold saveUsers
  cases h : serializeUsers st.users
  · rfl
  · cases w <;> simp

theorem saveSessions_sessions (w : Bool) (st : AuthState) :
    (saveSessions w st).sessions = st.sessions := by
  unfold saveSessions
  cases w <;> simp

theorem recordFailedAttempt_sessions (now : Nat) (ident : String) (st : AuthState) :
    (recordFailedAttempt now ident st).sessions = st.sessions := rfl

theorem authenticate_user_sessions (now : Nat) (w : Bool) (username password : String)
    (st : AuthState) :
    ((authenticate_user now w username password st).2.1).sessions = st.sessions := by
  unfold authenticate_user
  cases h : lookupAssoc st.users username
  · rfl
  · dsimp only
    split
    · rfl
    · split
      · rfl
      · simp [saveUsers_sessions]

theorem create_user_sessions (now : Nat) (w : Bool) (key : CredString)
    (username password : String) (perms : List String) (st : AuthState) (u : User)
    (st' : AuthState) (h : create_user now w key username password perms st = some (u, st')) :
    st'.sessions = st.sessions := by
  unfold create_user at h
  cases hl : lookupAssoc st.users username <;> rw [hl] at h
  · simp only [Option.some.injEq, Prod.mk.injEq] at h
    rw [← h.2]
    simp [saveUsers_sessions]
  · simp at h

theorem generate_new_api_key_sessions (w : Bool) (key : CredString) (username : String)
    (st : AuthState) (k' : CredString) (st' : AuthState)
    (h : generate_new_api_key w key username st = some (k', st')) :
    st'.sessions = st.sessions := by
  unfold generate_new_api_key at h
  cases hl : lookupAssoc st.users username <;> rw [hl] at h
  · simp at h
  · simp only [Option.some.injEq, Prod.mk.injEq] at h
    rw [← h.2]
    simp [saveUsers_sessions]

theorem revoke_api_key_sessions (w : Bool) (username : String) (key : CredString)
    (st : AuthState) :
    (revoke_api_key w username key st).sessions = st.sessions := by
  unfold revoke_api_key
  cases hl : lookupAssoc st.users username
  · rfl
  · dsimp only
    split
    · simp [saveUsers_sessions]
    · rfl

theorem check_rate_limit_sessions (now : Nat) (u : User) (e : String) (st : AuthState) :
    ((check_rate_limit now u e st).2).sessions = st.sessions := by
  unfold check_rate_limit
  dsimp only
  split <;> rfl

/-! ### The one-way deactivation invariant (claim C9) -/

theorem sidInactive_of_sessions_eq {sid : String} {st st' : AuthState}
    (h : st'.sessions = st.sessions) (hi : SidInactive sid st) : SidInactive sid st' := by
  intro p hp hk
  exact hi p (h ▸ hp) hk

theorem sidInactive_updateAssoc {sid : String} {st st' : AuthState} {k : String} {s : Session}
    (h : st'.sessions = updateAssoc st.sessions k s)
    (hi : SidInactive sid st) (hs : k = sid → s.is_active = false) :
    SidInactive sid st' := by
  intro p hp hk
  rw [h] at hp
  rcases mem_updateAssoc hp with hmem | heq
  · exact hi p hmem hk
  · rw [heq] at hk ⊢
    exact hs hk

/-- One operation of the manager never reactivates a deactivated session,
provided the session id it may freshly mint (only `create_session` does) is
not `sid` — which is guaranteed in the source by `secrets.token_urlsafe(32)`
ids being generated fresh and never reused. -/
theorem applyOp_sidInactive (op : AuthOp) (sid : String) (st : AuthState)
    (hop : createdSid op ≠ some sid) (hi : SidInactive sid st) :
    SidInactive sid (applyOp op st) := by
  cases op with
  | login now wOk u p =>
      exact sidInactive_of_sessions_eq (authenticate_user_sessions now wOk u p st) hi
  | createSession now wOk sid' user ip ua =>
      have hne : sid' ≠ sid := by
        simp [createdSid] at hop
        exact hop
      intro p hp hk
      simp only [applyOp, create_session, saveSessions_sessions] at hp
      rcases mem_updateAssoc hp with hmem | heq
      · exact hi p hmem hk
      · rw [heq] at hk
        exact absurd hk hne
  | validateSession now wOk sIp sid' ip =>
      simp only [applyOp]
      unfold validate_session
      cases hl : lookupAssoc st.sessions sid'
      · exact hi
      · dsimp only
        split
        · exact hi
        · split
          · intro p hp hk
            simp only [saveSessions_sessions] at hp
            rcases mem_updateAssoc hp with hmem | heq
            · exact hi p hmem hk
            · rw [heq]
          · split
            · exact hi
            · exact hi
  | revokeSession wOk sid' =>
      simp only [applyOp]
      unfold revoke_session
      cases hl : lookupAssoc st.sessions sid'
      · exact hi
      · intro p hp hk
        simp only [saveSessions_sessions] at hp
        rcases mem_updateAssoc hp with hmem | heq
        · exact hi p hmem hk
        · rw [heq]
  | deleteUser wU wS u =>
      simp only [applyOp]
      unfold delete_user
      cases hl : lookupAssoc st.users u
      · exact hi
      · intro p hp hk
        simp only [saveSessions_sessions, saveUsers_sessions] at hp
        rcases List.mem_map.mp hp with ⟨q, hq, hfq⟩
        by_cases hc : q.2.user_id = u
        · simp [hc] at hfq
          rw [← hfq]
        · simp [hc] at hfq
          rw [← hfq] at hk ⊢
          exact hi q hq hk
  | cleanup now wOk =>
      simp only [applyOp]
      unfold cleanup_expired_sessions
      intro p hp hk
      dsimp only at hp
      split at hp
      · simp only [saveSessions_sessions] at hp
        exact hi p (List.mem_of_mem_filter hp) hk
      · exact hi p (List.mem_of_mem_filter hp) hk
  | createUser now wOk key u p perms =>
      simp only [applyOp]
      cases hc : create_user now wOk key u p perms st with
      | none => exact hi
      | some r =>
          exact sidInactive_of_sessions_eq
            (create_user_sessions now wOk key u p perms st r.1 r.2 (by rw [hc])) hi
  | newApiKey wOk key u =>
      simp only [applyOp]
      cases hc : generate_new_api_key wOk key u st with
      | none => exact hi
      | some r =>
          exact sidInactive_of_sessions_eq
            (generate_new_api_key_sessions wOk key u st r.1 r.2 (by rw [hc])) hi
  | revokeApiKey wOk u key =>
      exact sidInactive_of_sessions_eq (revoke_api_key_sessions wOk u key st) hi
  | rateCheck now user e =>
      exact sidInactive_of_sessions_eq (check_rate_limit_sessions now user e st) hi

theorem applyOps_sidInactive (ops : List AuthOp) (sid : String) :
    ∀ st : AuthState, (∀ op ∈ ops, createdSid op ≠ some sid) → SidInactive sid st →
      SidInactive sid (applyOps ops st) := by
  induction ops with
  | nil =>
      intro st _ hi
      exact hi
  | cons op rest ih =>
      intro st hfresh hi
      exact ih (applyOp op st)
        (fun o ho => hfresh o (List.mem_cons_of_mem _ ho))
        (applyOp_sidInactive op sid st (hfresh op (List.mem_cons_self _ _)) hi)

/-! ### The claims -/

/-- C1: the spec claims that for an identity with 5 or more recorded
failures inside the trailing hour, a password login with the correct
password is denied as locked without reaching the slow hash verification.
The code has the opposite behaviour: `authenticate_user` never consults
`is_blocked` (no caller in the repository does either), so at a state where
`is_blocked` reports the identity blocked — here with all 5 failures inside
the trailing hour at the time of the attempt — the slow verify routine IS
invoked and the login SUCCEEDS. -/
theorem c1_login_ignores_lockout :
    is_blocked "alice" c1State = true
    ∧ (((lookupAssoc c1State.failed_attempts "alice").getD []).filter
        (fun t => 3500 - t < 3600)).length = 5
    ∧ ((authenticate_user 3500 true "alice" "correct-pw" c1State).1).isSome = true
    ∧ (authenticate_user 3500 true "alice" "correct-pw" c1State).2.2 = true := by
  refine ⟨rfl, rfl, rfl, rfl⟩

/-- C2: the spec claims a failed persistence flush fails the calling
mutation.  In the code `_save_users` swallows every exception, so
`create_user` invoked while the durable write fails (`writeOk = false`)
still returns the new user as success: the in-memory map now holds `bob`
while the on-disk store still holds the old (empty) mapping, and no failure
is reported. -/
theorem c2_create_user_success_despite_failed_flush :
    create_user 50 false (CredString.plain "pllm_bobkey") "bob" "hunter2" ["chat"] c2Start
      = some (c2Bob, { c2Start with users := [("bob", c2Bob)] })
    ∧ ({ c2Start with users := [("bob", c2Bob)] } : AuthState).usersDisk = some []
    ∧ lookupAssoc ({ c2Start with users := [("bob", c2Bob)] } : AuthState).users "bob"
        = some c2Bob := by
  refine ⟨rfl, rfl, rfl⟩

/-- C3: the spec claims save-then-load of the user store reproduces the
mapping field-for-field.  `_load_users` rebuilds each user by
`User(**user_data)` without parsing the ISO strings back (unlike
`_load_sessions`), so a user whose `created_at` is a datetime comes back
with a string in that field: the round trip is not the identity. -/
theorem c3_users_roundtrip_mismatch :
    (serializeUsers [("carol", c3Carol)]).map deserializeUsers
      = some [("carol", { c3Carol with created_at := DTVal.str "1000" })]
    ∧ (serializeUsers [("carol", c3Carol)]).map deserializeUsers
      ≠ some [("carol", c3Carol)] := by
  refine ⟨rfl, by decide⟩

/-- C6 counterexample: the claim says failures older than the trailing
hour never count toward the lockout decision.  At time 10000 none of
`mallory`'s five failures (all recorded at time 0) lie within the trailing
hour, yet `is_blocked` — which takes no clock and never evicts — still
reports her locked. -/
theorem c6_is_blocked_stale_cex :
    is_blocked "mallory" c6State = true
    ∧ (((lookupAssoc c6State.failed_attempts "mallory").getD []).filter
        (fun t => 10000 - t < 3600)).length = 0 := by
  refine ⟨rfl, rfl⟩

/-- C6 amended: `is_blocked` reports the identity locked iff the currently
stored failure list has at least 5 entries; the list is trimmed to the
trailing hour only when a failure is recorded
(`_record_failed_attempt` filters, then appends), not at check time. -/
theorem c6_is_blocked_characterization (ident : String) (st : AuthState) (now : Nat) :
    (is_blocked ident st = true ↔
      5 ≤ ((lookupAssoc st.failed_attempts ident).getD []).length)
    ∧ lookupAssoc (recordFailedAttempt now ident st).failed_attempts ident
        = some ((((lookupAssoc st.failed_attempts ident).getD []).filter
            (fun t => now - t < 3600)) ++ [now]) := by
  constructor
  · unfold is_blocked
    cases h : lookupAssoc st.failed_attempts ident <;> simp [h]
  · unfold recordFailedAttempt
    exact lookupAssoc_updateAssoc_self _ _ _

/-- C9: once a session's `is_active` is false, no manager operation ever
sets it back to true: every sequence of operations whose freshly minted
session ids (only `create_session` mints one, from
`secrets.token_urlsafe(32)`, never reused) avoid `sid` preserves the
deactivated state — in particular a later lookup of `sid`, if the record
still exists, still finds it inactive. -/
theorem c9_deactivation_permanent (ops : List AuthOp) (sid : String) (st : AuthState)
    (hfresh : ∀ op ∈ ops, createdSid op ≠ some sid)
    (hinact : SidInactive sid st) :
    SidInactive sid (applyOps ops st)
    ∧ ∀ s', lookupAssoc (applyOps ops st).sessions sid = some s' →
        s'.is_active = false := by
  have main := applyOps_sidInactive ops sid st hfresh hinact
  exact ⟨main, fun s' hs' => main (sid, s') (lookupAssoc_mem hs') rfl⟩

/-- C9 witness: the already-deactivated session `"dead"` stays inactive
across a workload exercising every operation kind. -/
theorem c9_deactivation_permanent_witness :
    SidInactive "dead" (applyOps c9Ops c9State) :=
  (c9_deactivation_permanent c9Ops "dead" c9State (by decide) (by decide)).1

/-- C10: a password login naming an unknown username, or a user whose
`is_active` is false, returns failure and leaves the entire state — in
particular the failed-attempt counters and hence every `is_blocked`
answer — unchanged: `authenticate_user` records a failure only on a
password mismatch for an existing active user. -/
theorem c10_login_unknown_or_inactive (now : Nat) (wOk : Bool)
    (username password : String) (st : AuthState)
    (h : lookupAssoc st.users username = Option.none
         ∨ ∃ u, lookupAssoc st.users username = some u ∧ u.is_active = false) :
    (authenticate_user now wOk username password st).1 = Option.none
    ∧ (authenticate_user now wOk username password st).2.1 = st
    ∧ ∀ ident, is_blocked ident ((authenticate_user now wOk username password st).2.1)
        = is_blocked ident st := by
  have key : authenticate_user now wOk username password st = (Option.none, st, false) := by
    unfold authenticate_user
    rcases h with h | ⟨u, hu, hact⟩
    · rw [h]
    · rw [hu]
      simp [hact]
  rw [key]
  exact ⟨rfl, rfl, fun _ => rfl⟩

/-- C10 witness: logging in as the deactivated `dora`, even with her
correct password, fails and leaves the state untouched. -/
theorem c10_login_unknown_or_inactive_witness :
    (authenticate_user 5 true "dora" "pwD" c10State).1 = Option.none
    ∧ (authenticate_user 5 true "dora" "pwD" c10State).2.1 = c10State
    ∧ is_blocked "dora" ((authenticate_user 5 true "dora" "pwD" c10State).2.1)
        = is_blocked "dora" c10State := by
  have h := c10_login_unknown_or_inactive 5 true "dora" "pwD" c10State
    (Or.inr ⟨c10Dora, rfl, rfl⟩)
  exact ⟨h.1, h.2.1, h.2.2 "dora"⟩

/-- C4 counterexample: the claim says validation succeeds only when the
current time is strictly below `expires_at`.  The code tests
`utcnow() > expires_at`, so at `now = expires_at` an existing active
session still validates although `now < expires_at` fails. -/
theorem c4_validate_boundary_cex :
    lookupAssoc c4State.sessions "s1" = some c4Sess
    ∧ c4Sess.is_active = true
    ∧ (validate_session 100 true false "s1" "9.9.9.9" c4State).1 = some c4Sess
    ∧ ¬ (100 < c4Sess.expires_at) := by
  refine ⟨rfl, rfl, rfl, by decide⟩

/-- C4 amended: `validate_session` succeeds iff the session exists, is
active, `now ≤ expires_at` (the boundary instant still validates), and —
when strict-IP binding is configured — the recorded IP matches; a validate
call made once the current time is strictly past `expires_at` sets
`is_active` to false, after which every later validate call fails. -/
theorem c4_validate_session_characterization (now : Nat) (wOk sIp : Bool)
    (sid ip : String) (st : AuthState) :
    (((validate_session now wOk sIp sid ip st).1).isSome = true ↔
      ∃ s, lookupAssoc st.sessions sid = some s ∧ s.is_active = true
           ∧ now ≤ s.expires_at ∧ (sIp = true → s.ip_address = ip))
    ∧ (∀ s, lookupAssoc st.sessions sid = some s → s.is_active = true →
        s.expires_at < now →
        (validate_session now wOk sIp sid ip st).1 = Option.none
        ∧ lookupAssoc ((validate_session now wOk sIp sid ip st).2).sessions sid
            = some { s with is_active := false }
        ∧ ∀ now' wOk' sIp' ip',
            (validate_session now' wOk' sIp' sid ip'
              ((validate_session now wOk sIp sid ip st).2)).1 = Option.none) := by
  constructor
  · unfold validate_session
    cases hl : lookupAssoc st.sessions sid with
    | none => simp
    | some s =>
        dsimp only
        by_cases hact : s.is_active = false
        · rw [if_pos hact]
          refine iff_of_false (by simp) ?_
          rintro ⟨s', hs', hact', _, _⟩
          cases hs'
          rw [hact] at hact'
          exact Bool.false_ne_true hact'
        · rw [if_neg hact]
          by_cases hexp : s.expires_at < now
          · rw [if_pos hexp]
            refine iff_of_false (by simp) ?_
            rintro ⟨s', hs', _, hle, _⟩
            cases hs'
            omega
          · rw [if_neg hexp]
            by_cases hip : sIp = true ∧ s.ip_address ≠ ip
            · rw [if_pos hip]
              refine iff_of_false (by simp) ?_
              rintro ⟨s', hs', _, _, hipc⟩
              cases hs'
              exact hip.2 (hipc hip.1)
            · rw [if_neg hip]
              refine iff_of_true (by simp) ?_
              refine ⟨s, rfl, ?_, by omega, ?_⟩
              · simp only [Bool.not_eq_false] at hact
                exact hact
              · intro hsip
                by_contra hne
                exact hip ⟨hsip, hne⟩
  · intro s hs hact hexp
    have hstep : validate_session now wOk sIp sid ip st
        = (Option.none, saveSessions wOk
            { st with sessions := updateAssoc st.sessions sid { s with is_active := false } }) := by
      unfold validate_session
      rw [hs]
      dsimp only
      rw [if_neg (by simp [hact]), if_pos hexp]
    rw [hstep]
    have hlook : lookupAssoc (saveSessions wOk
        { st with sessions := updateAssoc st.sessions sid { s with is_active := false } }).sessions sid
        = some { s with is_active := false } := by
      rw [saveSessions_sessions]
      exact lookupAssoc_updateAssoc_self _ _ _
    refine ⟨rfl, hlook, ?_⟩
    intro now' wOk' sIp' ip'
    unfold validate_session
    rw [hlook]
    simp

/-- C4 witness for the amended claim: validating the session at time 200
(past its expiry 100) fails, flips `is_active`, and a later validation at
time 300 fails as well. -/
theorem c4_validate_session_characterization_witness :
    (validate_session 200 true false "s1" "9.9.9.9" c4State).1 = Option.none
    ∧ lookupAssoc ((validate_session 200 true false "s1" "9.9.9.9" c4State).2).sessions "s1"
        = some { c4Sess with is_active := false }
    ∧ (validate_session 300 true false "s1" "9.9.9.9"
        ((validate_session 200 true false "s1" "9.9.9.9" c4State).2)).1 = Option.none := by
  have h := (c4_validate_session_characterization 200 true false "s1" "9.9.9.9" c4State).2
    c4Sess rfl rfl (by decide)
  exact ⟨h.1, h.2.1, h.2.2 300 true false "9.9.9.9"⟩

/-- C5: when bearer material is present (header of the form
`"Bearer " + tok`), the wrapper tries JWT verification, then API-key
resolution on the same string; if both fail the request is rejected 401
with the state untouched — the session cookie is never consulted, even if
present and valid — and when the JWT verifies, the resolved principal is
the token's user. -/
theorem c5_bearer_precedence (now : Nat) (wOk sIp : Bool) (tok : CredString)
    (cookie : Option String) (cip : Option String) (perms : List String)
    (path : String) (st : AuthState) :
    (authenticate_jwt now tok st = Option.none →
     authenticate_api_key tok st = Option.none →
     dispatchAuth now wOk sIp (some (AuthHeaderVal.bearer tok)) cookie cip perms path st
       = (AuthOutcome.err 401, st))
    ∧ (∀ u, authenticate_jwt now tok st = some u →
        resolveCredential now wOk sIp (some (AuthHeaderVal.bearer tok)) cookie cip st
          = (some u, st)) := by
  constructor
  · intro h1 h2
    simp [dispatchAuth, resolveCredential, h1, h2]
  · intro u hu
    simp [resolveCredential, hu]

/-- C5 witness: with a valid session cookie for `bob` on the request, a
garbage bearer string yields 401 (the session path is never reached) and a
valid token for `alice` resolves to `alice`, not to the cookie's `bob`. -/
theorem c5_bearer_precedence_witness :
    dispatchAuth 50 true false (some (AuthHeaderVal.bearer (CredString.plain "garbage")))
        (some "sb") (some "1.2.3.4") [] "/chat" c5State = (AuthOutcome.err 401, c5State)
    ∧ resolveCredential 50 true false (some (AuthHeaderVal.bearer c5Tok))
        (some "sb") (some "1.2.3.4") c5State = (some c5Alice, c5State) := by
  constructor
  · exact (c5_bearer_precedence 50 true false (CredString.plain "garbage")
      (some "sb") (some "1.2.3.4") [] "/chat" c5State).1 rfl rfl
  · exact (c5_bearer_precedence 50 true false c5Tok
      (some "sb") (some "1.2.3.4") [] "/chat" c5State).2 c5Alice rfl

/-- C7: deleting an existing user marks every session whose `user_id`
equals that username inactive, and every subsequent `validate_session`
call on such a session fails. -/
theorem c7_delete_user_invalidates_sessions (wU wS : Bool) (username sid : String)
    (st : AuthState) (u : User) (s : Session)
    (hu : lookupAssoc st.users username = some u)
    (hs : lookupAssoc st.sessions sid = some s)
    (howner : s.user_id = username) :
    lookupAssoc (delete_user wU wS username st).sessions sid
        = some { s with is_active := false }
    ∧ ∀ now' wOk' sIp' ip',
        (validate_session now' wOk' sIp' sid ip' (delete_user wU wS username st)).1
          = Option.none := by
  have hsessions : (delete_user wU wS username st).sessions
      = st.sessions.map (fun p =>
          (p.1, if p.2.user_id = username then { p.2 with is_active := false } else p.2)) := by
    unfold delete_user
    rw [hu]
    simp only [saveSessions_sessions, saveUsers_sessions]
    congr 1
    funext p
    by_cases hc : p.2.user_id = username <;> simp [hc]
  have hlook : lookupAssoc (delete_user wU wS username st).sessions sid
      = some { s with is_active := false } := by
    rw [hsessions,
      lookupAssoc_map_vals
        (fun _ v => if v.user_id = username then { v with is_active := false } else v)
        st.sessions sid,
      hs]
    simp [howner]
  refine ⟨hlook, ?_⟩
  intro now' wOk' sIp' ip'
  unfold validate_session
  rw [hlook]
  simp

/-- C7 witness: deleting `bob` deactivates his live session `"sb"` and a
later validation of it fails. -/
theorem c7_delete_user_invalidates_sessions_witness :
    lookupAssoc (delete_user true true "bob" c7State).sessions "sb"
        = some { c7Sess with is_active := false }
    ∧ (validate_session 10 true false "sb" "1.2.3.4" (delete_user true true "bob" c7State)).1
        = Option.none := by
  have h := c7_delete_user_invalidates_sessions true true "bob" "sb" c7State c7Bob c7Sess
    rfl rfl rfl
  exact ⟨h.1, h.2 10 true false "1.2.3.4"⟩

/-- C8: the rate-limit check first evicts timestamps at least an hour old
for the `username:endpoint` key, succeeds iff the surviving count is
strictly below the user's `rate_limit`, stores the evicted list plus the
current timestamp exactly on success — hence the (N+1)-th request inside
the trailing hour is rejected, and once every recorded request has aged
past the window a new request is admitted again. -/
theorem c8_check_rate_limit_characterization (now : Nat) (u : User) (e : String)
    (st : AuthState) :
    ((check_rate_limit now u e st).1 = true ↔
      (((lookupAssoc st.rate_limits (u.username ++ ":" ++ e)).getD []).filter
        (fun t => now - t < 3600)).length < u.rate_limit)
    ∧ lookupAssoc ((check_rate_limit now u e st).2).rate_limits (u.username ++ ":" ++ e)
        = some (if (((lookupAssoc st.rate_limits (u.username ++ ":" ++ e)).getD []).filter
                    (fun t => now - t < 3600)).length < u.rate_limit
                then (((lookupAssoc st.rate_limits (u.username ++ ":" ++ e)).getD []).filter
                    (fun t => now - t < 3600)) ++ [now]
                else ((lookupAssoc st.rate_limits (u.username ++ ":" ++ e)).getD []).filter
                    (fun t => now - t < 3600))
    ∧ ((∀ t ∈ (lookupAssoc st.rate_limits (u.username ++ ":" ++ e)).getD [],
          3600 ≤ now - t) → 0 < u.rate_limit →
        (check_rate_limit now u e st).1 = true) := by
  have hempty : (∀ t ∈ (lookupAssoc st.rate_limits (u.username ++ ":" ++ e)).getD [],
      3600 ≤ now - t) →
      ((lookupAssoc st.rate_limits (u.username ++ ":" ++ e)).getD []).filter
        (fun t => now - t < 3600) = [] := by
    intro hall
    rw [List.filter_eq_nil_iff]
    intro a ha
    have := hall a ha
    simp
    omega
  unfold check_rate_limit
  dsimp only
  split
  case isTrue hlim =>
      refine ⟨iff_of_false (by simp) (by omega), ?_, ?_⟩
      · rw [lookupAssoc_updateAssoc_self, if_neg (by omega)]
      · intro hall hpos
        have h0 := hempty hall
        rw [h0] at hlim
        simp at hlim
        omega
  case isFalse hlim =>
      refine ⟨iff_of_true rfl (by omega), ?_, ?_⟩
      · rw [lookupAssoc_updateAssoc_self, if_pos (by omega)]
      · intro _ _
        rfl

/-- C8 witness: `eve` has `rate_limit = 1`; both stored requests for
`eve:/x` are older than an hour at time 7200, so a new request is admitted
again. -/
theorem c8_check_rate_limit_characterization_witness :
    (check_rate_limit 7200 c8User "/x" c8State).1 = true :=
  (c8_check_rate_limit_characterization 7200 c8User "/x" c8State).2.2
    (by decide) (by decide)

end AuthMW
